import Mathlib

/-!
Verification of the rule-evaluation engine of the data-quality framework.

The Python source (src/checker/*.py, src/db_connector.py) is shallowly
embedded: every evaluator becomes a pure Lean function over an explicit
model of what the query executor returns for the queries the evaluator
issues (a table is the list of values the issued SQL would see), Python
floats become exact rationals, Python ints become Nat/Int, and the open
`details` dict becomes an association list over a small value type `DVal`.
Display-only rounding (Python `round(x, 6)`) is not modelled; stored
detail values are exact.
-/

namespace DataQuality

/-- `CheckStatus` enumeration from base_checker.py. -/
inductive CheckStatus where
  | PASS
  | FAIL
  | WARNING
  | ERROR
deriving DecidableEq, Repr

/-- Values stored in a `CheckResult`'s open `details` dictionary. -/
inductive DVal where
  | s (v : String)
  | i (v : Int)
  | q (v : ℚ)
  | b (v : Bool)
  | null
  | list (vs : List DVal)
deriving Repr

/-- `CheckResult` dataclass from base_checker.py (the `executed_at`
timestamp, pure provenance, is not modelled). -/
structure CheckResult where
  rule_id : String
  check_type : String
  description : String
  table_name : String
  column_name : Option String
  status : CheckStatus
  total_rows : Nat
  violation_count : Nat
  violation_ratio : ℚ
  details : List (String × DVal)

/-- The rule fields read by `BaseChecker._make_result` (a Python dict;
absent keys are `Option.none`). -/
structure RuleDict where
  rule_id : Option String
  description : Option String
  table : Option String
  source_table : Option String
  column : Option String

/-- `BaseChecker._make_result`: builds a `CheckResult`, deriving
`violation_ratio = violation_count / total_rows` when `total_rows > 0`
and `0.0` otherwise. -/
def make_result (rule : RuleDict) (check_type : String) (status : CheckStatus)
    (total_rows : Nat) (violation_count : Nat)
    (details : Option (List (String × DVal))) : CheckResult :=
  { rule_id := rule.rule_id.getD "UNKNOWN"
    check_type := check_type
    description := rule.description.getD ""
    table_name := rule.table.getD (rule.source_table.getD "")
    column_name := rule.column
    status := status
    total_rows := total_rows
    violation_count := violation_count
    violation_ratio :=
      if 0 < total_rows then (violation_count : ℚ) / (total_rows : ℚ) else 0
    details := details.getD [] }

/-- `BaseChecker._make_error_result`: converts a caught exception (its
text `errorText`) into an ERROR result with default counts. -/
def make_error_result (rule : RuleDict) (check_type : String)
    (errorText : String) : CheckResult :=
  make_result rule check_type CheckStatus.ERROR 0 0
    (some [("error", DVal.s errorText)])

/-! ## Count checker (count_checker.py) -/

/-- The rule fields read by `CountChecker._run_single_check`. -/
structure CountRule where
  rule_id : String
  description : String
  source_table : String
  target_table : String
  threshold : Option ℚ
  where_clause : Option String

/-- `rule.get("threshold", 0.0)`. -/
def CountRule.thresholdD (r : CountRule) : ℚ := r.threshold.getD 0

/-- View of a `CountRule` through `_make_result`'s generic field access. -/
def CountRule.toDict (r : CountRule) : RuleDict :=
  { rule_id := some r.rule_id
    description := some r.description
    table := none
    source_table := some r.source_table
    column := none }

/-- The `diff_ratio` computation of `CountChecker._run_single_check`:
`0.0` when both counts are zero, `1.0` when only the source is zero,
otherwise `abs(source_count - target_count) / source_count`. -/
def countDiffRatio (source_count target_count : Nat) : ℚ :=
  if source_count = 0 then (if target_count = 0 then 0 else 1)
  else |(source_count : ℚ) - (target_count : ℚ)| / (source_count : ℚ)

/-- `CountChecker._run_single_check`, given the `source_count` and
`target_count` the executor returned. -/
def countCheck (rule : CountRule) (source_count target_count : Nat) : CheckResult :=
  let diff_ratio := countDiffRatio source_count target_count
  let status :=
    if diff_ratio ≤ rule.thresholdD then CheckStatus.PASS else CheckStatus.FAIL
  let violation_count := ((source_count : Int) - (target_count : Int)).natAbs
  make_result rule.toDict "count" status source_count violation_count
    (some [("source_table", DVal.s rule.source_table),
           ("target_table", DVal.s rule.target_table),
           ("source_count", DVal.i source_count),
           ("target_count", DVal.i target_count),
           ("diff_ratio", DVal.q diff_ratio),
           ("threshold", DVal.q rule.thresholdD),
           ("where_clause", (rule.where_clause.map DVal.s).getD DVal.null)])

/-! ## Chunked counting (db_connector.py)

A table is modelled as the list of its rows' integer primary keys
(`CAST(transaction_id AS SIGNED)`), possibly with repetitions. -/

/-- `DBConnector.execute_count` without a where-clause: `COUNT(*)`. -/
def execute_count (pks : List Int) : Nat := pks.length

/-- One iteration of the `while current_start <= max_id` loop of
`execute_chunked_count`: count rows with pk in
`[current_start, current_start + chunk_size - 1]`, then advance.  The
Python loop does not terminate for `chunk_size = 0` (never used: the
default is 100000); the model returns the sum accumulated so far there. -/
def chunkSum (pks : List Int) (chunk_size : Nat) (max_id : Int) :
    Int → Nat
  | current_start =>
    if _h : current_start ≤ max_id ∧ 0 < chunk_size then
      (pks.filter (fun p =>
        decide (current_start ≤ p ∧ p ≤ current_start + chunk_size - 1))).length
        + chunkSum pks chunk_size max_id (current_start + chunk_size)
    else 0
termination_by current_start => (max_id + 1 - current_start).toNat
decreasing_by
  omega

/-- `DBConnector.execute_chunked_count`: `MIN`/`MAX` of the pk column
(`NULL` on an empty table becomes 0 through Python's `or 0`), an early
return of 0 when `max_id == 0`, then the chunk loop. -/
def execute_chunked_count (pks : List Int) (chunk_size : Nat) : Nat :=
  let min_id : Int := (pks.min?).getD 0
  let max_id : Int := (pks.max?).getD 0
  if max_id = 0 then 0
  else chunkSum pks chunk_size max_id min_id

/-! ## Null checker (null_checker.py)

The checked table is modelled as the list of the checked column's values,
one entry per row (`none` models SQL NULL), so `execute_count(table)` is
its length and the issued null-count queries are counting filters. -/

/-- The rule fields read by `NullChecker._run_single_check`. -/
structure NullRule where
  rule_id : String
  description : String
  table : String
  column : String
  max_null_ratio : Option ℚ
  include_empty_string : Option Bool

/-- `rule.get("max_null_ratio", 0.0)`. -/
def NullRule.maxNullRatioD (r : NullRule) : ℚ := r.max_null_ratio.getD 0

/-- `rule.get("include_empty_string", False)`. -/
def NullRule.includeEmptyD (r : NullRule) : Bool := r.include_empty_string.getD false

/-- View of a `NullRule` through `_make_result`'s generic field access. -/
def NullRule.toDict (r : NullRule) : RuleDict :=
  { rule_id := some r.rule_id
    description := some r.description
    table := some r.table
    source_table := none
    column := some r.column }

/-- MySQL `TRIM(s)`: strip leading and trailing space characters. -/
def trimSpaces (s : String) : String :=
  (((s.toList.dropWhile (· == ' ')).reverse.dropWhile (· == ' ')).reverse).asString

/-- Row predicate of the null-count query: plain `col IS NULL`, or, with
`include_empty_string`, the `COALESCE(NULLIF(TRIM(col), ''), NULL) IS
NULL` pattern (null, or trimmed to the empty string). -/
def isNullLike (include_empty : Bool) (v : Option String) : Bool :=
  match v with
  | none => true
  | some s => include_empty && (trimSpaces s == "")

/-- Result of the null-count query over the column. -/
def nullCount (rule : NullRule) (col : List (Option String)) : Nat :=
  (col.filter (isNullLike rule.includeEmptyD)).length

/-- `SUM(CASE WHEN col IS NULL ...)` of the detail query. -/
def pureNullCount (col : List (Option String)) : Nat :=
  (col.filter Option.isNone).length

/-- `SUM(CASE WHEN col IS NOT NULL AND TRIM(col) = '' ...)`. -/
def emptyStringCount (col : List (Option String)) : Nat :=
  (col.filter (fun v => match v with
    | none => false
    | some s => trimSpaces s == "")).length

/-- `NullChecker._run_single_check`: the empty-table short circuit to
WARNING, then the three-band classification of
`null_count / total_rows` against `max_null_ratio`. -/
def nullCheck (rule : NullRule) (col : List (Option String)) : CheckResult :=
  let total_rows := col.length
  if total_rows = 0 then
    make_result rule.toDict "null" CheckStatus.WARNING 0 0
      (some [("message", DVal.s "table is empty")])
  else
    let null_count := nullCount rule col
    let null_ratio : ℚ := (null_count : ℚ) / (total_rows : ℚ)
    let details :=
      [("max_null_ratio", DVal.q rule.maxNullRatioD),
       ("actual_null_ratio", DVal.q null_ratio),
       ("include_empty_string", DVal.b rule.includeEmptyD)]
        ++ (if rule.includeEmptyD then
              [("pure_null_count", DVal.i (pureNullCount col)),
               ("empty_string_count", DVal.i (emptyStringCount col))]
            else [])
    let status :=
      if null_ratio ≤ rule.maxNullRatioD then CheckStatus.PASS
      else if null_ratio ≤ rule.maxNullRatioD * 2 then CheckStatus.WARNING
      else CheckStatus.FAIL
    make_result rule.toDict "null" status total_rows null_count (some details)

/-! ## Duplicate checker (duplicate_checker.py)

The checked table is modelled as the list of its rows restricted to the
rule's key columns: each row is the list of the key columns' values in
column order (`none` models SQL NULL). -/

/-- The rule fields read by `DuplicateChecker._run_single_check`. -/
structure DupRule where
  rule_id : String
  description : String
  table : String
  columns : List String

/-- View of a `DupRule` through `_make_result`'s generic field access. -/
def DupRule.toDict (r : DupRule) : RuleDict :=
  { rule_id := some r.rule_id
    description := some r.description
    table := some r.table
    source_table := none
    column := none }

/-- Key tuples entering `GROUP BY`: rows where every key column
`IS NOT NULL`, projected to their values. -/
def dupKeys (rows : List (List (Option String))) : List (List String) :=
  (rows.filter (fun r => r.all Option.isSome)).map (fun r => r.filterMap id)

/-- The `HAVING COUNT(*) > 1` groups, each with its occurrence count. -/
def dupGroups (rows : List (List (Option String))) : List (List String × Nat) :=
  let ks := dupKeys rows
  (ks.dedup.filter (fun k => decide (1 < ks.count k))).map (fun k => (k, ks.count k))

/-- `dup_group_count`: result of the first scalar query. -/
def dupGroupCount (rows : List (List (Option String))) : Nat :=
  (dupGroups rows).length

/-- `dup_row_count`: `COALESCE(SUM(cnt - 1), 0)` over the groups. -/
def dupRowCount (rows : List (List (Option String))) : Nat :=
  ((dupGroups rows).map (fun g => g.2 - 1)).sum

/-- Descending insertion by occurrence count, modelling SQL
`ORDER BY COUNT(*) DESC` (ties in either order). -/
def insertByCountDesc (x : List String × Nat) :
    List (List String × Nat) → List (List String × Nat)
  | [] => [x]
  | y :: ys => if y.2 ≤ x.2 then x :: y :: ys else y :: insertByCountDesc x ys

/-- Sort by occurrence count, descending. -/
def sortByCountDesc : List (List String × Nat) → List (List String × Nat)
  | [] => []
  | x :: xs => insertByCountDesc x (sortByCountDesc xs)

/-- The sample query: duplicate groups ordered by count descending,
`LIMIT 10`. -/
def dupSampleRecords (rows : List (List (Option String))) :
    List (List String × Nat) :=
  (sortByCountDesc (dupGroups rows)).take 10

/-- Detail encoding of one sample record (key values plus
`duplicate_count`). -/
def dupSampleDVal (g : List String × Nat) : DVal :=
  DVal.list (g.1.map DVal.s ++ [DVal.i g.2])

/-- `DuplicateChecker._run_single_check`, given the table rows projected
to the rule's key columns. -/
def duplicateCheck (rule : DupRule) (rows : List (List (Option String))) :
    CheckResult :=
  let total_rows := rows.length
  let dup_group_count := dupGroupCount rows
  let dup_row_count := dupRowCount rows
  let sample_records := dupSampleRecords rows
  let status :=
    if dup_row_count = 0 then CheckStatus.PASS else CheckStatus.FAIL
  make_result rule.toDict "duplicate" status total_rows dup_row_count
    (some [("columns", DVal.list (rule.columns.map DVal.s)),
           ("duplicate_groups", DVal.i dup_group_count),
           ("duplicate_rows", DVal.i dup_row_count),
           ("sample_records", DVal.list ((sample_records.take 5).map dupSampleDVal))])

/-! ## Transform checker (transform_checker.py)

Query results are modelled at the point the evaluator reads them: an
aggregate query yields a list of rows each carrying the comparison
column's numeric value (`none` for SQL NULL or a missing key — Python's
`row.get` conflates the two); a join query yields rows carrying the
stringified join key (`str(row[join_key])`) and the comparison value. -/

/-- The rule fields read by the transform sub-checks. -/
structure TransformRule where
  rule_id : String
  description : String
  join_key : String
  compare_column : String
  tolerance : Option ℚ

/-- `rule.get("tolerance", 0)`. -/
def TransformRule.toleranceD (r : TransformRule) : ℚ := r.tolerance.getD 0

/-- View of a `TransformRule` through `_make_result`. -/
def TransformRule.toDict (r : TransformRule) : RuleDict :=
  { rule_id := some r.rule_id
    description := some r.description
    table := none
    source_table := none
    column := none }

/-- Detail encoding of an optional numeric value. -/
def optQDVal (v : Option ℚ) : DVal := (v.map DVal.q).getD DVal.null

/-- `TransformChecker._run_aggregate_compare`: WARNING when either result
set is empty or either extracted value is null; at `source_value == 0`
PASS iff `target_value == 0`; otherwise compare
`abs(source - target) / abs(source)` with the tolerance. -/
def aggregateCompare (rule : TransformRule)
    (source_result target_result : List (Option ℚ)) : CheckResult :=
  match source_result, target_result with
  | [], _ =>
      make_result rule.toDict "transform" CheckStatus.WARNING 0 0
        (some [("message", DVal.s "source or target result empty")])
  | _, [] =>
      make_result rule.toDict "transform" CheckStatus.WARNING 0 0
        (some [("message", DVal.s "source or target result empty")])
  | sv :: _, tv :: _ =>
      let statusDiff : CheckStatus × Option ℚ :=
        match sv, tv with
        | none, _ => (CheckStatus.WARNING, none)
        | some _, none => (CheckStatus.WARNING, none)
        | some s, some t =>
          if s = 0 then
            ((if t = 0 then CheckStatus.PASS else CheckStatus.FAIL), some |t|)
          else
            ((if |s - t| / |s| ≤ rule.toleranceD then CheckStatus.PASS
              else CheckStatus.FAIL), some |s - t|)
      make_result rule.toDict "transform" statusDiff.1 0 0
        (some
          [("source_value", optQDVal sv),
           ("target_value", optQDVal tv),
           ("difference", optQDVal statusDiff.2),
           ("tolerance", DVal.q rule.toleranceD),
           ("compare_column", DVal.s rule.compare_column)])

/-- One key/value row of a join query after stringification of the key. -/
abbrev JoinRow := String × Option ℚ

/-- Python dict assignment `m[k] = v`: update in place when the key is
present (keeping its position), else append. -/
def dictInsert (m : List JoinRow) (k : String) (v : Option ℚ) : List JoinRow :=
  if m.any (fun e => e.1 = k) then
    m.map (fun e => if e.1 = k then (k, v) else e)
  else m ++ [(k, v)]

/-- The `source_map` / `target_map` construction loop: later rows with the
same stringified key overwrite earlier ones. -/
def buildMap (rows : List JoinRow) : List JoinRow :=
  rows.foldl (fun m r => dictInsert m r.1 r.2) []

/-- Dict lookup `target_map[key]` (`none` = key absent). -/
def mapLookup (m : List JoinRow) (k : String) : Option (Option ℚ) :=
  (m.find? (fun e => e.1 = k)).map Prod.snd

/-- Accumulator of the mismatch loop over `source_map`. -/
structure JoinAcc where
  mismatch_count : Nat
  missing_in_target : Nat
  value_mismatches : List (String × Option ℚ × Option ℚ)

/-- One iteration of the `for key in source_map` loop: keys absent from
the target count as missing; both-null is no mismatch; exactly-one-null
is a mismatch whose sample is appended unconditionally; a numeric
difference beyond the tolerance is a mismatch whose sample is appended
only while fewer than 5 samples are held. -/
def joinStep (tmap : List JoinRow) (tol : ℚ) (acc : JoinAcc) (e : JoinRow) :
    JoinAcc :=
  match mapLookup tmap e.1 with
  | none =>
      { acc with
        missing_in_target := acc.missing_in_target + 1
        mismatch_count := acc.mismatch_count + 1 }
  | some tgt_val =>
      match e.2, tgt_val with
      | none, none => acc
      | none, some t =>
          { acc with
            mismatch_count := acc.mismatch_count + 1
            value_mismatches := acc.value_mismatches ++ [(e.1, none, some t)] }
      | some s, none =>
          { acc with
            mismatch_count := acc.mismatch_count + 1
            value_mismatches := acc.value_mismatches ++ [(e.1, some s, none)] }
      | some s, some t =>
          if tol < |s - t| then
            { acc with
              mismatch_count := acc.mismatch_count + 1
              value_mismatches :=
                if acc.value_mismatches.length < 5 then
                  acc.value_mismatches ++ [(e.1, some s, some t)]
                else acc.value_mismatches }
          else acc

/-- The full `for key in source_map` loop. -/
def joinLoop (smap tmap : List JoinRow) (tol : ℚ) : JoinAcc :=
  smap.foldl (joinStep tmap tol) ⟨0, 0, []⟩

/-- The `for key in target_map: if key not in source_map` loop. -/
def missingInSource (smap tmap : List JoinRow) : Nat :=
  (tmap.filter (fun e => (mapLookup smap e.1).isNone)).length

/-- `len(set(source_map.keys()) | set(target_map.keys()))`. -/
def joinTotalKeys (smap tmap : List JoinRow) : Nat :=
  ((smap.map Prod.fst) ++ (tmap.map Prod.fst)).dedup.length

/-- Detail encoding of one mismatch sample. -/
def mismatchDVal (m : String × Option ℚ × Option ℚ) : DVal :=
  DVal.list [DVal.s m.1, optQDVal m.2.1, optQDVal m.2.2]

/-- `TransformChecker._run_join_compare`, given the source and target
query rows (key already stringified). -/
def joinCompare (rule : TransformRule)
    (source_rows target_rows : List JoinRow) : CheckResult :=
  let smap := buildMap source_rows
  let tmap := buildMap target_rows
  let acc := joinLoop smap tmap rule.toleranceD
  let mismatch_count := acc.mismatch_count + missingInSource smap tmap
  let total_keys := joinTotalKeys smap tmap
  let status :=
    if mismatch_count = 0 then CheckStatus.PASS else CheckStatus.FAIL
  make_result rule.toDict "transform" status total_keys mismatch_count
    (some [("join_key", DVal.s rule.join_key),
           ("compare_column", DVal.s rule.compare_column),
           ("missing_in_target", DVal.i acc.missing_in_target),
           ("missing_in_source", DVal.i (missingInSource smap tmap)),
           ("value_mismatches_sample",
             DVal.list (acc.value_mismatches.map mismatchDVal))])

/-! ## Masking checker (masking_checker.py)

The checked table is modelled as the list of the checked column's values
(`none` models SQL NULL); the executor abstraction maps a (table, column)
pair to that list.  MySQL `SUBSTRING(s, pos)` / `SUBSTRING(s, pos, len)`
with a positive 1-based `pos` become drop/take, `CHAR_LENGTH` becomes
`String.length`. -/

/-- Executor abstraction used by the masking sub-checks. -/
def MaskingDB := String → String → List (Option String)

/-- The rule fields read by `MaskingChecker`. -/
structure MaskingRule where
  rule_id : String
  description : String
  table : String
  column : String
  masking_type : Option String
  expected_pattern_value : Option String
  expected_pattern_start : Option Nat
  expected_length : Option Nat

/-- `rule.get("masking_type", "")`. -/
def MaskingRule.maskingTypeD (r : MaskingRule) : String := r.masking_type.getD ""

/-- View of a `MaskingRule` through `_make_result`. -/
def MaskingRule.toDict (r : MaskingRule) : RuleDict :=
  { rule_id := some r.rule_id
    description := some r.description
    table := some r.table
    source_table := none
    column := some r.column }

/-- `SUBSTRING(s, pos)` for a positive 1-based position. -/
def substrFrom (s : String) (pos : Nat) : String :=
  (s.toList.drop (pos - 1)).asString

/-- `SUBSTRING(s, pos, len)` for a positive 1-based position. -/
def substrLen (s : String) (pos len : Nat) : String :=
  ((s.toList.drop (pos - 1)).take len).asString

/-- Non-null values of a column. -/
def nonNullValues (col : List (Option String)) : List String :=
  col.filterMap id

/-- `MaskingChecker._check_ssn_masking` violation predicate: wrong total
length, or the substring from the expected start differs from the
expected mask literal. -/
def ssnViolation (expected_value : String) (expected_start expected_length : Nat)
    (v : String) : Bool :=
  v.length != expected_length || substrFrom v expected_start != expected_value

/-- `MaskingChecker._check_ssn_masking`. -/
def checkSsn (db : MaskingDB) (rule : MaskingRule) : CheckResult :=
  let expected_value := rule.expected_pattern_value.getD "*******"
  let expected_start := rule.expected_pattern_start.getD 8
  let expected_length := rule.expected_length.getD 14
  let vals := nonNullValues (db rule.table rule.column)
  let total_rows := vals.length
  let violations :=
    vals.filter (ssnViolation expected_value expected_start expected_length)
  let status :=
    if violations.length = 0 then CheckStatus.PASS else CheckStatus.FAIL
  make_result rule.toDict "masking" status total_rows violations.length
    (some [("masking_type", DVal.s "ssn"),
           ("violation_samples", DVal.list ((violations.take 5).map DVal.s))])

/-- `MaskingChecker._check_phone_masking` violation predicate. -/
def phoneViolation (expected_value : String) (expected_start : Nat)
    (v : String) : Bool :=
  substrLen v expected_start expected_value.length != expected_value

/-- `MaskingChecker._check_phone_masking`. -/
def checkPhone (db : MaskingDB) (rule : MaskingRule) : CheckResult :=
  let expected_value := rule.expected_pattern_value.getD "****"
  let expected_start := rule.expected_pattern_start.getD 5
  let vals := nonNullValues (db rule.table rule.column)
  let total_rows := vals.length
  let violations := vals.filter (phoneViolation expected_value expected_start)
  let status :=
    if violations.length = 0 then CheckStatus.PASS else CheckStatus.FAIL
  make_result rule.toDict "masking" status total_rows violations.length
    (some [("masking_type", DVal.s "phone")])

/-- Hexadecimal character set of the `REGEXP '[^0-9a-fA-F]'` check. -/
def isHexChar (c : Char) : Bool :=
  c.isDigit || (('a' ≤ c) && (c ≤ 'f')) || (('A' ≤ c) && (c ≤ 'F'))

/-- `MaskingChecker._check_hash_applied` violation predicate: wrong
length, or some non-hexadecimal character. -/
def hashViolation (expected_length : Nat) (v : String) : Bool :=
  v.length != expected_length || v.toList.any (fun c => !isHexChar c)

/-- `MaskingChecker._check_hash_applied`. -/
def checkHash (db : MaskingDB) (rule : MaskingRule) : CheckResult :=
  let expected_length := rule.expected_length.getD 64
  let vals := nonNullValues (db rule.table rule.column)
  let total_rows := vals.length
  let violations := vals.filter (hashViolation expected_length)
  let status :=
    if violations.length = 0 then CheckStatus.PASS else CheckStatus.FAIL
  make_result rule.toDict "masking" status total_rows violations.length
    (some [("masking_type", DVal.s "hash"),
           ("expected_hash_length", DVal.i expected_length)])

/-- `MaskingChecker._check_no_plain_ssn` leak predicate: masked-length
value whose tail from position 8 is not the mask literal. -/
def leakViolation (v : String) : Bool :=
  substrFrom v 8 != "*******" && v.length == 14

/-- `MaskingChecker._check_no_plain_ssn`. -/
def checkLeak (db : MaskingDB) (rule : MaskingRule) : CheckResult :=
  let vals := nonNullValues (db rule.table rule.column)
  let total_rows := vals.length
  let violations := vals.filter leakViolation
  let status :=
    if violations.length = 0 then CheckStatus.PASS else CheckStatus.FAIL
  make_result rule.toDict "masking" status total_rows violations.length
    (some [("masking_type", DVal.s "leak_check")])

/-- The per-rule dispatch of `MaskingChecker.run_checks`: each resolvable
`masking_type` runs its sub-check (which appends one result); an
unresolvable one only emits a log warning and appends nothing. -/
def maskingDispatch (db : MaskingDB) (rule : MaskingRule) : List CheckResult :=
  match rule.maskingTypeD with
  | "ssn" => [checkSsn db rule]
  | "phone" => [checkPhone db rule]
  | "hash" => [checkHash db rule]
  | "leak_check" => [checkLeak db rule]
  | _ => []

/-- `MaskingChecker.run_checks` over a rule list (the embedded sub-checks
are total, so the per-rule exception handler is never reached). -/
def maskingRunChecks (db : MaskingDB) (rules : List MaskingRule) :
    List CheckResult :=
  rules.foldl (fun acc r => acc ++ maskingDispatch db r) []

/-! ## Helper accessors used by the theorems below. -/

/-- Lookup of one `details` entry. -/
def detailsLookup (r : CheckResult) (k : String) : Option DVal :=
  (r.details.find? (fun e => e.1 == k)).map Prod.snd

/-- Length of a list-valued detail entry (0 when absent or of another
shape). -/
def dvalListLen : Option DVal → Nat
  | some (DVal.list vs) => vs.length
  | _ => 0

/-! ## Theorems -/

/-- C10: every ERROR `CheckResult` built by `_make_error_result` from a
caught exception has `total_rows = 0`, `violation_count = 0`,
`violation_ratio = 0.0`, and a `details` mapping whose only entry binds
"error" to the exception's text. -/
theorem error_result_shape (rule : RuleDict) (check_type : String)
    (errorText : String) :
    (make_error_result rule check_type errorText).status = CheckStatus.ERROR ∧
    (make_error_result rule check_type errorText).total_rows = 0 ∧
    (make_error_result rule check_type errorText).violation_count = 0 ∧
    (make_error_result rule check_type errorText).violation_ratio = 0 ∧
    (make_error_result rule check_type errorText).details =
      [("error", DVal.s errorText)] :=
  ⟨rfl, rfl, rfl, rfl, rfl⟩

/-- C9: `_make_result` derives `violation_ratio = violation_count /
total_rows` when `total_rows > 0` and `0.0` when `total_rows = 0` (no
division error), and under `violation_count ≤ total_rows` the ratio lies
in `[0, 1]`. -/
theorem violation_ratio_bounds (rule : RuleDict) (check_type : String)
    (status : CheckStatus) (total_rows violation_count : Nat)
    (details : Option (List (String × DVal)))
    (h : violation_count ≤ total_rows) :
    (0 < total_rows →
      (make_result rule check_type status total_rows violation_count
        details).violation_ratio = (violation_count : ℚ) / (total_rows : ℚ)) ∧
    (total_rows = 0 →
      (make_result rule check_type status total_rows violation_count
        details).violation_ratio = 0) ∧
    0 ≤ (make_result rule check_type status total_rows violation_count
          details).violation_ratio ∧
    (make_result rule check_type status total_rows violation_count
      details).violation_ratio ≤ 1 := by
  simp only [make_result]
  by_cases hpos : 0 < total_rows
  · refine ⟨fun _ => by simp [hpos], fun h0 => by omega, ?_, ?_⟩
    · simp only [if_pos hpos]
      positivity
    · simp only [if_pos hpos]
      rw [div_le_one (by exact_mod_cast hpos)]
      exact_mod_cast h
  · refine ⟨fun h0 => absurd h0 hpos, fun _ => by simp [hpos], ?_, ?_⟩
    · simp [hpos]
    · simp [hpos]

/-- Witness for C9 at `total_rows = 10`, `violation_count = 3`. -/
theorem violation_ratio_bounds_witness :
    0 ≤ (make_result ⟨none, none, none, none, none⟩ "null" CheckStatus.PASS
          10 3 none).violation_ratio ∧
    (make_result ⟨none, none, none, none, none⟩ "null" CheckStatus.PASS
      10 3 none).violation_ratio ≤ 1 :=
  (violation_ratio_bounds ⟨none, none, none, none, none⟩ "null"
    CheckStatus.PASS 10 3 none (by decide)).2.2

/-- C1: the count evaluator computes `diff_ratio = |source − target| /
source` for a positive source count, 0 when both counts are 0 and 1 when
only the source is 0; its status is PASS iff `diff_ratio ≤ threshold`
(FAIL otherwise) and its `violation_count` is `|source − target|`. -/
theorem count_checker_spec (rule : CountRule) (s t : Nat)
    (_hthr : 0 ≤ rule.thresholdD) :
    (0 < s → countDiffRatio s t = |(s : ℚ) - (t : ℚ)| / (s : ℚ)) ∧
    (s = 0 → t = 0 → countDiffRatio s t = 0) ∧
    (s = 0 → 0 < t → countDiffRatio s t = 1) ∧
    ((countCheck rule s t).status = CheckStatus.PASS ↔
      countDiffRatio s t ≤ rule.thresholdD) ∧
    ((countCheck rule s t).status = CheckStatus.FAIL ↔
      rule.thresholdD < countDiffRatio s t) ∧
    (countCheck rule s t).violation_count = ((s : Int) - (t : Int)).natAbs := by
  refine ⟨fun hs => ?_, fun hs ht => ?_, fun hs ht => ?_, ?_, ?_, rfl⟩
  · simp [countDiffRatio, Nat.pos_iff_ne_zero.mp hs]
  · simp [countDiffRatio, hs, ht]
  · simp [countDiffRatio, hs, Nat.pos_iff_ne_zero.mp ht]
  · simp only [countCheck, make_result]
    by_cases hd : countDiffRatio s t ≤ rule.thresholdD <;> simp [hd]
  · simp only [countCheck, make_result]
    by_cases hd : countDiffRatio s t ≤ rule.thresholdD
    · simp [hd, not_lt.mpr hd]
    · simp [hd, lt_of_not_le hd]

/-- Witness for C1: the spec's edge example `source = 0, target = 5`
gives `diff_ratio = 1` and FAIL at threshold 0. -/
theorem count_checker_spec_witness :
    countDiffRatio 0 5 = 1 ∧
    (countCheck ⟨"CNT-001", "", "s", "t", some 0, none⟩ 0 5).status =
      CheckStatus.FAIL := by
  have h := count_checker_spec ⟨"CNT-001", "", "s", "t", some 0, none⟩ 0 5
    (le_refl 0)
  refine ⟨h.2.2.1 rfl (by norm_num), (h.2.2.2.2.1).2 ?_⟩
  rw [h.2.2.1 rfl (by norm_num)]
  norm_num [CountRule.thresholdD]

/-- C7: the null evaluator short-circuits an empty table (`total_rows =
0`) to WARNING with an explanatory message in `details`, whatever the
threshold, performing no ratio computation (the division branch is never
reached). -/
theorem null_empty_table_warning (rule : NullRule) (col : List (Option String))
    (h : col.length = 0) :
    (nullCheck rule col).status = CheckStatus.WARNING ∧
    (nullCheck rule col).details = [("message", DVal.s "table is empty")] := by
  constructor <;> simp [nullCheck, h, make_result]

/-- Witness for C7 at the empty table. -/
theorem null_empty_table_warning_witness :
    (nullCheck ⟨"NULL-001", "", "t", "c", some 0, some true⟩ []).status =
      CheckStatus.WARNING :=
  (null_empty_table_warning ⟨"NULL-001", "", "t", "c", some 0, some true⟩ []
    rfl).1

/-- C2: over a non-empty table the null evaluator classifies the null
ratio `r = null_count / total_rows` against `m = max_null_ratio` in three
bands: PASS iff `r ≤ m`, WARNING iff `m < r ≤ 2m`, FAIL iff `r > 2m`. -/
theorem null_three_band (rule : NullRule) (col : List (Option String))
    (h : col ≠ []) :
    ((nullCheck rule col).status = CheckStatus.PASS ↔
      (nullCount rule col : ℚ) / (col.length : ℚ) ≤ rule.maxNullRatioD) ∧
    ((nullCheck rule col).status = CheckStatus.WARNING ↔
      (rule.maxNullRatioD < (nullCount rule col : ℚ) / (col.length : ℚ) ∧
       (nullCount rule col : ℚ) / (col.length : ℚ) ≤ 2 * rule.maxNullRatioD)) ∧
    ((nullCheck rule col).status = CheckStatus.FAIL ↔
      2 * rule.maxNullRatioD < (nullCount rule col : ℚ) / (col.length : ℚ)) := by
  have hlen : ¬ col.length = 0 := by simpa using h
  have hr0 : 0 ≤ (nullCount rule col : ℚ) / (col.length : ℚ) := by positivity
  have hstat : (nullCheck rule col).status =
      (if (nullCount rule col : ℚ) / (col.length : ℚ) ≤ rule.maxNullRatioD then
        CheckStatus.PASS
       else if (nullCount rule col : ℚ) / (col.length : ℚ) ≤
          rule.maxNullRatioD * 2 then CheckStatus.WARNING
       else CheckStatus.FAIL) := by
    simp [nullCheck, hlen, make_result]
  rw [hstat]
  by_cases h1 : (nullCount rule col : ℚ) / (col.length : ℚ) ≤ rule.maxNullRatioD
  · rw [if_pos h1]
    exact ⟨iff_of_true rfl h1,
      iff_of_false (by simp) (by rintro ⟨hlt, -⟩; linarith),
      iff_of_false (by simp) (by intro hlt; linarith)⟩
  · rw [if_neg h1]
    by_cases h2 : (nullCount rule col : ℚ) / (col.length : ℚ) ≤
        rule.maxNullRatioD * 2
    · rw [if_pos h2]
      exact ⟨iff_of_false (by simp) h1,
        iff_of_true rfl ⟨lt_of_not_le h1, by linarith⟩,
        iff_of_false (by simp) (by intro hlt; linarith)⟩
    · rw [if_neg h2]
      exact ⟨iff_of_false (by simp) h1,
        iff_of_false (by simp) (by rintro ⟨-, hle⟩; linarith),
        iff_of_true rfl (by linarith [lt_of_not_le h2])⟩

/-- Witness for C2: the spec's example column (1 null + 1 empty string in
5 rows) with `include_empty_string` and threshold 0 fails. -/
theorem null_three_band_witness :
    (nullCheck ⟨"NULL-002", "", "t", "c", some 0, some true⟩
      [some "010-1234-5678", some "x", some "", none, some "y"]).status =
      CheckStatus.FAIL := by
  have h := null_three_band ⟨"NULL-002", "", "t", "c", some 0, some true⟩
    [some "010-1234-5678", some "x", some "", none, some "y"] (by simp)
  apply h.2.2.mpr
  have hc : nullCount ⟨"NULL-002", "", "t", "c", some 0, some true⟩
      [some "010-1234-5678", some "x", some "", none, some "y"] = 2 := by rfl
  rw [hc]
  norm_num [NullRule.maxNullRatioD]

/-- C5: the aggregate transform compare yields WARNING when a result set
is empty or a compared value is null; at `source_value = 0` it passes iff
`target_value = 0` regardless of tolerance; otherwise it passes iff
`|source − target| / |source| ≤ tolerance` (tolerance defaulting to 0). -/
theorem aggregate_compare_spec (rule : TransformRule)
    (src tgt : List (Option ℚ)) :
    ((src = [] ∨ tgt = []) →
      (aggregateCompare rule src tgt).status = CheckStatus.WARNING) ∧
    (∀ sv s0 tv t0, src = sv :: s0 → tgt = tv :: t0 →
      ((sv = none ∨ tv = none) →
        (aggregateCompare rule src tgt).status = CheckStatus.WARNING) ∧
      (∀ s t, sv = some s → tv = some t →
        (s = 0 →
          ((aggregateCompare rule src tgt).status = CheckStatus.PASS ↔ t = 0) ∧
          (t ≠ 0 →
            (aggregateCompare rule src tgt).status = CheckStatus.FAIL)) ∧
        (s ≠ 0 →
          ((aggregateCompare rule src tgt).status = CheckStatus.PASS ↔
            |s - t| / |s| ≤ rule.toleranceD) ∧
          ((aggregateCompare rule src tgt).status = CheckStatus.FAIL ↔
            rule.toleranceD < |s - t| / |s|)))) := by
  constructor
  · rintro (rfl | rfl)
    · simp [aggregateCompare, make_result]
    · cases src <;> simp [aggregateCompare, make_result]
  · rintro sv s0 tv t0 rfl rfl
    constructor
    · rintro (rfl | rfl)
      · simp [aggregateCompare, make_result]
      · cases sv <;> simp [aggregateCompare, make_result]
    · rintro s t rfl rfl
      constructor
      · intro hs
        subst hs
        by_cases ht : t = 0
        · subst ht
          simp [aggregateCompare, make_result]
        · simp [aggregateCompare, make_result, ht]
      · intro hs
        by_cases hd : |s - t| / |s| ≤ rule.toleranceD
        · simp [aggregateCompare, make_result, hs, hd, not_lt.mpr hd]
        · simp [aggregateCompare, make_result, hs, hd, lt_of_not_le hd]

/-- Witness for C5: the spec's example `source_sum = 100, target_sum =
101, tolerance = 0.02` passes (ratio 0.01 ≤ 0.02). -/
theorem aggregate_compare_spec_witness :
    (aggregateCompare ⟨"TRF-001", "", "k", "total", some (1 / 50)⟩
      [some 100] [some 101]).status = CheckStatus.PASS := by
  have h := aggregate_compare_spec ⟨"TRF-001", "", "k", "total", some (1 / 50)⟩
    [some 100] [some 101]
  refine (((h.2 (some 100) [] (some 101) [] rfl rfl).2 100 101 rfl rfl).2
    (by norm_num)).1.mpr ?_
  norm_num [TransformRule.toleranceD]

/-- C6 counterexample: a masking rule whose `masking_type` resolves to no
sub-mode yields no `CheckResult` at all — in particular no ERROR result —
contradicting the claim that every input rule yields a result. -/
theorem masking_unknown_type_counterexample :
    maskingRunChecks (fun _ _ => [])
      [⟨"MASK-X", "", "t", "c", some "bogus", none, none, none⟩] = [] :=
  rfl

/-- C6 amended: a masking rule with an unresolvable `masking_type` is
skipped (only a log warning, no result) and the run continues unchanged
with the remaining rules; in the range evaluator an unrecognized
`check_type` falls through to the numeric range sub-mode instead of
erroring. -/
theorem masking_unknown_type_skipped (db : MaskingDB) (r : MaskingRule)
    (rest : List MaskingRule)
    (h : r.maskingTypeD ∉ (["ssn", "phone", "hash", "leak_check"] : List String)) :
    maskingRunChecks db (r :: rest) = maskingRunChecks db rest := by
  have hd : maskingDispatch db r = [] := by
    simp only [maskingDispatch]
    split
    · exact absurd (by simp_all) h
    · exact absurd (by simp_all) h
    · exact absurd (by simp_all) h
    · exact absurd (by simp_all) h
    · rfl
  simp [maskingRunChecks, hd]

/-- Witness for C6 at a concrete unresolvable rule followed by an empty
tail. -/
theorem masking_unknown_type_skipped_witness :
    maskingRunChecks (fun _ _ => [])
      [⟨"MASK-X", "", "t", "c", some "bogus", none, none, none⟩] = [] := by
  have h := masking_unknown_type_skipped (fun _ _ => [])
    ⟨"MASK-X", "", "t", "c", some "bogus", none, none, none⟩ [] (by decide)
  simpa [maskingRunChecks] using h

/-- Splitting a lower-bound count at a cut point `e` with `a ≤ e + 1`. -/
lemma length_filter_ge_split (l : List Int) (a e : Int) (hae : a ≤ e + 1) :
    (l.filter (fun p => decide (a ≤ p))).length =
      (l.filter (fun p => decide (a ≤ p ∧ p ≤ e))).length +
      (l.filter (fun p => decide (e + 1 ≤ p))).length := by
  induction l with
  | nil => simp
  | cons x xs ih =>
    by_cases h1 : a ≤ x
    · by_cases h2 : x ≤ e
      · have h3 : ¬ (e + 1 ≤ x) := by omega
        simp [List.filter_cons, h1, h2, h3] at ih ⊢
        omega
      · have h3 : e + 1 ≤ x := by omega
        simp [List.filter_cons, h1, h2, h3] at ih ⊢
        omega
    · have h2 : ¬ (a ≤ x ∧ x ≤ e) := by omega
      have h3 : ¬ (e + 1 ≤ x) := by omega
      simp [List.filter_cons, h1, h2, h3] at ih ⊢
      omega

/-- The chunk loop sums, over consecutive ranges, exactly the rows at or
above its starting point, provided every row is at or below `max_id`. -/
lemma chunkSum_counts (pks : List Int) (chunk : Nat) (hc : 0 < chunk)
    (max_id : Int) (hmax : ∀ p ∈ pks, p ≤ max_id) (start : Int) :
    chunkSum pks chunk max_id start =
      (pks.filter (fun p => decide (start ≤ p))).length := by
  generalize hn : (max_id + 1 - start).toNat = n
  induction n using Nat.strong_induction_on generalizing start with
  | _ n ih =>
    rw [chunkSum]
    by_cases hs : start ≤ max_id
    · rw [dif_pos ⟨hs, hc⟩]
      have hrec := ih ((max_id + 1 - (start + chunk)).toNat) (by omega)
        (start + chunk) rfl
      have hsplit := length_filter_ge_split pks start (start + chunk - 1)
        (by omega)
      have he : start + (chunk : Int) - 1 + 1 = start + (chunk : Int) := by ring
      rw [he] at hsplit
      omega
    · rw [dif_neg (by tauto)]
      have hf : pks.filter (fun p => decide (start ≤ p)) = [] := by
        rw [List.filter_eq_nil_iff]
        intro p hp
        have := hmax p hp
        simp only [decide_eq_true_eq]
        omega
      simp [hf]

/-- C3 counterexample: the single-row table with primary key 0 is counted
as 0 by the chunked strategy (the `max_id == 0` early return treats it as
empty) while a direct count returns 1 — the strategy choice does change
the final total here. -/
theorem chunked_count_counterexample :
    execute_chunked_count [(0 : Int)] 100000 = 0 ∧
    execute_count [(0 : Int)] = 1 :=
  ⟨rfl, rfl⟩

/-- C3 amended: chunked counting agrees with the direct count for every
table that is empty or whose maximum primary key is nonzero (positive
chunk size); a non-empty table whose maximum primary key is exactly 0
is instead reported as 0 by the early return.  The last, possibly
shorter, chunk is included and the empty table returns 0 without
iterating. -/
theorem chunked_count_agrees (pks : List Int) (chunk_size : Nat)
    (hc : 0 < chunk_size)
    (hmax : pks = [] ∨ (pks.max?).getD 0 ≠ 0) :
    execute_chunked_count pks chunk_size = execute_count pks := by
  rcases pks with _ | ⟨x, xs⟩
  · rfl
  · rcases hmax with hmax | hmax
    · exact absurd hmax (by simp)
    · obtain ⟨mn, hmn⟩ : ∃ m, (x :: xs).min? = some m := ⟨_, List.min?_cons⟩
      obtain ⟨mx, hmx⟩ : ∃ m, (x :: xs).max? = some m := ⟨_, List.max?_cons⟩
      have hmn_le : ∀ b ∈ x :: xs, mn ≤ b :=
        ((@List.min?_eq_some_iff Int mn _ _ ⟨fun h1 h2 => le_antisymm h1 h2⟩
          le_refl min_choice (fun _ _ _ => le_min_iff) (x :: xs)).mp hmn).2
      have hmx_ge : ∀ b ∈ x :: xs, b ≤ mx :=
        ((@List.max?_eq_some_iff Int mx _ _ ⟨fun h1 h2 => le_antisymm h1 h2⟩
          le_refl max_choice (fun _ _ _ => max_le_iff) (x :: xs)).mp hmx).2
      have hmx0 : mx ≠ 0 := by
        intro h0
        exact hmax (by rw [hmx, h0]; rfl)
      have hfull : (x :: xs).filter (fun p => decide (mn ≤ p)) = x :: xs := by
        rw [List.filter_eq_self]
        intro p hp
        simpa using hmn_le p hp
      unfold execute_chunked_count
      rw [hmn, hmx]
      simp only [Option.getD_some, if_neg hmx0]
      rw [chunkSum_counts (x :: xs) chunk_size hc mx hmx_ge mn, hfull]
      rfl

/-- Witness for C3 (amended) at a five-row table counted in chunks of 2,
the last chunk shorter than the chunk size. -/
theorem chunked_count_agrees_witness :
    execute_chunked_count [1, 2, 3, 4, 5] 2 = execute_count [1, 2, 3, 4, 5] :=
  chunked_count_agrees [1, 2, 3, 4, 5] 2 (by decide) (Or.inr (by decide))

/-- Membership through descending insertion. -/
lemma mem_insertByCountDesc (x y : List String × Nat)
    (l : List (List String × Nat)) :
    y ∈ insertByCountDesc x l ↔ y = x ∨ y ∈ l := by
  induction l with
  | nil => simp [insertByCountDesc]
  | cons z zs ih =>
    by_cases h : z.2 ≤ x.2
    all_goals simp [insertByCountDesc, h, ih]
    all_goals tauto

/-- Descending insertion preserves descending order. -/
lemma insertByCountDesc_pairwise (x : List String × Nat)
    (l : List (List String × Nat))
    (h : l.Pairwise (fun a b => b.2 ≤ a.2)) :
    (insertByCountDesc x l).Pairwise (fun a b => b.2 ≤ a.2) := by
  induction l with
  | nil => simp [insertByCountDesc]
  | cons z zs ih =>
    rcases List.pairwise_cons.mp h with ⟨hz, hzs⟩
    by_cases hle : z.2 ≤ x.2
    · rw [insertByCountDesc, if_pos hle]
      refine List.Pairwise.cons ?_ h
      intro y hy
      rcases List.mem_cons.mp hy with rfl | hy
      · exact hle
      · exact le_trans (hz y hy) hle
    · rw [insertByCountDesc, if_neg hle]
      refine List.Pairwise.cons ?_ (ih hzs)
      intro y hy
      rcases (mem_insertByCountDesc x y zs).mp hy with rfl | hy
      · omega
      · exact hz y hy

/-- Descending insertion is a permutation of consing. -/
lemma insertByCountDesc_perm (x : List String × Nat)
    (l : List (List String × Nat)) :
    List.Perm (insertByCountDesc x l) (x :: l) := by
  induction l with
  | nil => exact List.Perm.refl _
  | cons z zs ih =>
    by_cases h : z.2 ≤ x.2
    · rw [insertByCountDesc, if_pos h]
    · rw [insertByCountDesc, if_neg h]
      exact (ih.cons z).trans (List.Perm.swap x z zs)

/-- The sample sort is descending by occurrence count. -/
lemma sortByCountDesc_pairwise (l : List (List String × Nat)) :
    (sortByCountDesc l).Pairwise (fun a b => b.2 ≤ a.2) := by
  induction l with
  | nil => exact List.Pairwise.nil
  | cons x xs ih => exact insertByCountDesc_pairwise x _ ih

/-- The sample sort permutes its input. -/
lemma sortByCountDesc_perm (l : List (List String × Nat)) :
    List.Perm (sortByCountDesc l) l := by
  induction l with
  | nil => exact List.Perm.refl _
  | cons x xs ih =>
    exact (insertByCountDesc_perm x (sortByCountDesc xs)).trans (ih.cons x)

/-- C4: the duplicate evaluator reports `duplicate_groups` = the number
of distinct all-non-null key-tuples occurring more than once,
`violation_count` = the sum over those groups of (occurrences − 1), at
most 5 sample key-tuples ordered by occurrence count descending (each a
genuine duplicate group with its count), and PASS iff there is no excess
row. -/
theorem duplicate_checker_spec (rule : DupRule)
    (rows : List (List (Option String))) :
    (duplicateCheck rule rows).violation_count =
      ∑ k ∈ (dupKeys rows).toFinset.filter
        (fun k => 1 < (dupKeys rows).count k), ((dupKeys rows).count k - 1) ∧
    dupGroupCount rows =
      ((dupKeys rows).toFinset.filter
        (fun k => 1 < (dupKeys rows).count k)).card ∧
    detailsLookup (duplicateCheck rule rows) "sample_records" =
      some (DVal.list (((dupSampleRecords rows).take 5).map dupSampleDVal)) ∧
    ((dupSampleRecords rows).take 5).length ≤ 5 ∧
    ((dupSampleRecords rows).take 5).Pairwise (fun a b => b.2 ≤ a.2) ∧
    (∀ g ∈ (dupSampleRecords rows).take 5,
      1 < (dupKeys rows).count g.1 ∧ g.2 = (dupKeys rows).count g.1) ∧
    ((duplicateCheck rule rows).status = CheckStatus.PASS ↔
      (duplicateCheck rule rows).violation_count = 0) := by
  have hnd : ((dupKeys rows).dedup.filter
      (fun k => decide (1 < (dupKeys rows).count k))).Nodup :=
    (List.nodup_dedup _).filter _
  have hdtf : (dupKeys rows).dedup.toFinset = (dupKeys rows).toFinset := by
    ext a; simp [List.mem_dedup]
  have htf : ((dupKeys rows).dedup.filter
      (fun k => decide (1 < (dupKeys rows).count k))).toFinset =
      (dupKeys rows).toFinset.filter (fun k => 1 < (dupKeys rows).count k) := by
    rw [List.toFinset_filter, hdtf]
    simp
  refine ⟨?_, ?_, rfl, List.length_take_le 5 _, ?_, ?_, ?_⟩
  · have hmm : dupRowCount rows =
        (((dupKeys rows).dedup.filter
          (fun k => decide (1 < (dupKeys rows).count k))).map
          (fun k => (dupKeys rows).count k - 1)).sum := by
      unfold dupRowCount dupGroups
      rw [List.map_map]
      rfl
    show dupRowCount rows = _
    rw [hmm, ← htf, List.sum_toFinset _ hnd]
  · show (dupGroups rows).length = _
    rw [← htf, List.toFinset_card_of_nodup hnd]
    simp [dupGroups]
  · exact ((sortByCountDesc_pairwise (dupGroups rows)).sublist
      ((List.take_sublist 5 _).trans (List.take_sublist 10 _)))
  · intro g hg
    have hmem : g ∈ dupGroups rows :=
      (sortByCountDesc_perm (dupGroups rows)).subset
        (((List.take_sublist 5 _).trans (List.take_sublist 10 _)).subset hg)
    simp only [dupGroups, List.mem_map, List.mem_filter,
      decide_eq_true_eq] at hmem
    obtain ⟨k, ⟨-, hk⟩, rfl⟩ := hmem
    exact ⟨hk, rfl⟩
  · show (if dupRowCount rows = 0 then CheckStatus.PASS else CheckStatus.FAIL)
      = CheckStatus.PASS ↔ dupRowCount rows = 0
    by_cases hz : dupRowCount rows = 0 <;> simp [hz]

/-- Witness for C4: the spec's example — one group of three identical
key-tuples among otherwise unique rows — yields one duplicate group and
two excess rows. -/
theorem duplicate_checker_spec_witness :
    (duplicateCheck ⟨"DUP-002", "", "t", ["k"]⟩
      [[some "a"], [some "a"], [some "a"], [some "b"], [some "c"]]).violation_count
      = 2 ∧
    dupGroupCount [[some "a"], [some "a"], [some "a"], [some "b"], [some "c"]]
      = 1 := by
  have h := duplicate_checker_spec ⟨"DUP-002", "", "t", ["k"]⟩
    [[some "a"], [some "a"], [some "a"], [some "b"], [some "c"]]
  exact ⟨by rw [h.1]; decide, by rw [h.2.1]; decide⟩

/-- A source entry hitting the exactly-one-null mismatch branch of
`joinStep` (present in the target with exactly one of the two values
null). -/
def isNullMismatch (tmap : List JoinRow) (e : JoinRow) : Bool :=
  match mapLookup tmap e.1, e.2 with
  | some (some _), none => true
  | some none, some _ => true
  | _, _ => false

/-- Number of source-map entries hitting the exactly-one-null branch. -/
def nullMismatchCount (tmap smap : List JoinRow) : Nat :=
  (smap.filter (isNullMismatch tmap)).length

/-- One `joinStep` grows the sample list by one on the exactly-one-null
branch and otherwise keeps it at or below `max current 5`. -/
lemma joinStep_samples_length (tmap : List JoinRow) (tol : ℚ) (acc : JoinAcc)
    (e : JoinRow) :
    (joinStep tmap tol acc e).value_mismatches.length ≤
      (if isNullMismatch tmap e then acc.value_mismatches.length + 1
       else max acc.value_mismatches.length 5) := by
  rcases hl : mapLookup tmap e.1 with _ | tv
  · simp [joinStep, isNullMismatch, hl]
  · rcases tv with _ | t
    · rcases he : e.2 with _ | s
      · simp [joinStep, isNullMismatch, hl, he]
      · simp [joinStep, isNullMismatch, hl, he]
    · rcases he : e.2 with _ | s
      · simp [joinStep, isNullMismatch, hl, he]
      · simp only [joinStep, isNullMismatch, hl, he]
        by_cases hd : tol < |s - t|
        · rw [if_pos hd]
          by_cases h5 : acc.value_mismatches.length < 5
          all_goals simp [h5]
          all_goals omega
        · rw [if_neg hd]
          simp

/-- The mismatch loop keeps the sample list within
`max initial 5` plus one per exactly-one-null mismatch. -/
lemma joinFold_samples_bound (tmap : List JoinRow) (tol : ℚ) :
    ∀ (l : List JoinRow) (acc : JoinAcc),
      ((l.foldl (joinStep tmap tol) acc).value_mismatches.length ≤
        max acc.value_mismatches.length 5 +
          (l.filter (isNullMismatch tmap)).length) := by
  intro l
  induction l with
  | nil => intro acc; simp
  | cons x xs ih =>
    intro acc
    rw [List.foldl_cons]
    have h1 := joinStep_samples_length tmap tol acc x
    have h2 := ih (joinStep tmap tol acc x)
    by_cases hx : isNullMismatch tmap x
    · rw [if_pos hx] at h1
      rw [List.filter_cons_of_pos hx, List.length_cons]
      omega
    · rw [if_neg hx] at h1
      rw [List.filter_cons_of_neg (by simpa using hx)]
      omega

/-- `dictInsert` keys as a set: insert the new key. -/
lemma dictInsert_keys_toFinset (m : List JoinRow) (k : String) (v : Option ℚ) :
    ((dictInsert m k v).map Prod.fst).toFinset =
      insert k (m.map Prod.fst).toFinset := by
  by_cases h : m.any (fun e => e.1 = k)
  · rw [dictInsert, if_pos h]
    have hkeys : (m.map (fun e => if e.1 = k then (k, v) else e)).map Prod.fst =
        m.map Prod.fst := by
      rw [List.map_map]
      refine List.map_congr_left ?_
      intro e _
      by_cases he : e.1 = k <;> simp [he]
    rw [hkeys]
    have hk : k ∈ (m.map Prod.fst).toFinset := by
      rcases List.any_eq_true.mp h with ⟨e, he, hek⟩
      simp only [List.mem_toFinset, List.mem_map]
      exact ⟨e, he, by simpa using hek⟩
    rw [Finset.insert_eq_self.mpr hk]
  · rw [dictInsert, if_neg h]
    rw [List.map_append, List.toFinset_append]
    simp [Finset.union_comm, Finset.insert_eq]

/-- `buildMap` preserves the set of stringified keys. -/
lemma buildMap_keys_toFinset (rows : List JoinRow) :
    ((buildMap rows).map Prod.fst).toFinset =
      (rows.map Prod.fst).toFinset := by
  suffices h : ∀ (m : List JoinRow),
      ((rows.foldl (fun m r => dictInsert m r.1 r.2) m).map Prod.fst).toFinset =
        (m.map Prod.fst).toFinset ∪ (rows.map Prod.fst).toFinset by
    simpa using h []
  induction rows with
  | nil => intro m; simp
  | cons r rs ih =>
    intro m
    rw [List.foldl_cons, ih (dictInsert m r.1 r.2), dictInsert_keys_toFinset]
    simp only [List.map_cons, List.toFinset_cons]
    rw [Finset.insert_union, Finset.union_insert]

/-- C8 counterexample: with six keys whose source value is non-null and
target value null, every key hits the uncapped exactly-one-null branch,
so the stored `value_mismatches_sample` list holds 6 entries — more than
the claimed maximum of 5. -/
theorem join_compare_counterexample :
    ¬ (dvalListLen (detailsLookup
        (joinCompare ⟨"TRF-002", "", "id", "amount", some 0⟩
          [("k1", some 1), ("k2", some 1), ("k3", some 1),
           ("k4", some 1), ("k5", some 1), ("k6", some 1)]
          [("k1", none), ("k2", none), ("k3", none),
           ("k4", none), ("k5", none), ("k6", none)])
        "value_mismatches_sample") ≤ 5) := by
  decide

/-- C8 amended: the join compare caps at 5 only the samples coming from
the both-non-null numeric branch; exactly-one-null mismatches are
appended without cap, so the stored sample list is bounded by 5 plus the
number of exactly-one-null mismatch keys (and can exceed 5).  The
result's `total_rows` does equal the size of the union of the stringified
source and target key sets. -/
theorem join_compare_amended (rule : TransformRule)
    (source_rows target_rows : List JoinRow) :
    dvalListLen (detailsLookup (joinCompare rule source_rows target_rows)
        "value_mismatches_sample") ≤
      5 + nullMismatchCount (buildMap target_rows) (buildMap source_rows) ∧
    (joinCompare rule source_rows target_rows).total_rows =
      ((source_rows.map Prod.fst).toFinset ∪
        (target_rows.map Prod.fst).toFinset).card := by
  constructor
  · have hb := joinFold_samples_bound (buildMap target_rows) rule.toleranceD
      (buildMap source_rows) ⟨0, 0, []⟩
    have hlen : dvalListLen (detailsLookup
        (joinCompare rule source_rows target_rows) "value_mismatches_sample") =
        (joinLoop (buildMap source_rows) (buildMap target_rows)
          rule.toleranceD).value_mismatches.length := by
      simp [joinCompare, detailsLookup, make_result, dvalListLen,
        List.find?]
    rw [hlen]
    simpa [joinLoop, nullMismatchCount] using hb
  · have htot : (joinCompare rule source_rows target_rows).total_rows =
        joinTotalKeys (buildMap source_rows) (buildMap target_rows) := rfl
    rw [htot, joinTotalKeys, ← List.card_toFinset, List.toFinset_append,
      buildMap_keys_toFinset, buildMap_keys_toFinset]

end DataQuality
